import Mathlib

/-!
Shallow embedding of the sandboxed execution engine of flux-api-backend.

The source is src/src/services/execution/codeExecutor.js, which contains
three classes: CodeExecutor (validation, strategy selection, vm2 execution,
result cache), SandboxService (the orchestrator: executeEndpoint) and
DockerManager (container lifecycle and in-container execution).  Pure
computations are translated as Lean functions; the effectful pipeline of
SandboxService.executeEndpoint is state-passing over an explicit record of
externally determined outcomes (database lookups, docker calls, the
mock-data save), and the observable side effects are collected in an
Effects record.
-/

namespace FluxExec

/-- JavaScript runtime values as they flow through the execution pipeline.
The constructor `null` also stands for `undefined`: the embedded code only
ever tests these two by truthiness or by strict comparison against other
kinds of values, for which the two behave identically. -/
inductive JsVal where
  | null : JsVal
  | bool : Bool → JsVal
  | num : Int → JsVal
  | str : String → JsVal
  | arr : List JsVal → JsVal
  | obj : List (String × JsVal) → JsVal

/-- JavaScript truthiness of a value. -/
def JsVal.truthy : JsVal → Bool
  | .null => false
  | .bool b => b
  | .num n => n != 0
  | .str s => s != ""
  | .arr _ => true
  | .obj _ => true

/-- Property read `v[k]` on a value: a field of an object, `undefined`
(modelled as `none`) otherwise. -/
def JsVal.get? : JsVal → String → Option JsVal
  | .obj kvs, k => kvs.lookup k
  | _, _ => none

/-- Truthiness of a possibly-absent value (`undefined` is falsy). -/
def truthyOpt : Option JsVal → Bool
  | some v => v.truthy
  | none => false

/-- The JavaScript `a || b` operator on a possibly-absent left operand:
the left value when it is present and truthy, otherwise the right value. -/
def jsOr (a : Option JsVal) (b : JsVal) : JsVal :=
  match a with
  | some v => if v.truthy then v else b
  | none => b

/-- Set key `k` to `v` in an association list, replacing the first
occurrence of `k` or appending when `k` is absent.  This models both
JavaScript object-spread field override and `Map.prototype.set`. -/
def setKV {α : Type} : List (String × α) → String → α → List (String × α)
  | [], k, v => [(k, v)]
  | (k', v') :: rest, k, v =>
    if k' = k then (k, v) :: rest else (k', v') :: setKV rest k v

/-! ### A small matcher for the regular expressions used by the source

CodeExecutor's validation and strategy selection use a fixed set of regex
literals with the `gi` flags.  Every one of them is a sequence of literal
characters, character classes, `\s*`, `\s+` and `[^x]*` pieces, so we embed
exactly that fragment.  Case-insensitivity (`i`) is modelled by lowering
the subject code and writing the patterns in lower case; all patterns are
ASCII, where `Char.toLower` agrees with JavaScript `toLowerCase`. -/

/-- One piece of a regex pattern from the source. -/
inductive PatElem where
  | lit : Char → PatElem
  | cls : List Char → PatElem
  | ws0 : PatElem
  | ws1 : PatElem
  | notStar : List Char → PatElem

/-- Characters matched by the regex class `\s`. -/
def isWsChar (c : Char) : Bool :=
  c = ' ' || c = '\t' || c = '\n' || c = '\r' || c = '\x0b' || c = '\x0c'

/-- Greedy matching of a pattern against a prefix of the subject, returning
the number of characters consumed.  Stars first try to consume (greedy, as
JavaScript regexes do) and fall back to matching the rest of the pattern.
The fuel argument strictly dominates the recursion; `matchElems` below
supplies enough of it that the `0` case is never reached. -/
def matchElemsF : Nat → List PatElem → List Char → Option Nat
  | 0, _, _ => none
  | _ + 1, [], _ => some 0
  | fuel + 1, .lit c :: ps, d :: cs =>
    if d = c then (matchElemsF fuel ps cs).map (· + 1) else none
  | fuel + 1, .cls set :: ps, d :: cs =>
    if set.contains d then (matchElemsF fuel ps cs).map (· + 1) else none
  | fuel + 1, .ws1 :: ps, d :: cs =>
    if isWsChar d then (matchElemsF fuel (.ws0 :: ps) cs).map (· + 1) else none
  | fuel + 1, .ws0 :: ps, d :: cs =>
    if isWsChar d then
      match matchElemsF fuel (.ws0 :: ps) cs with
      | some n => some (n + 1)
      | none => matchElemsF fuel ps (d :: cs)
    else matchElemsF fuel ps (d :: cs)
  | fuel + 1, .notStar bad :: ps, d :: cs =>
    if bad.contains d then matchElemsF fuel ps (d :: cs)
    else
      match matchElemsF fuel (.notStar bad :: ps) cs with
      | some n => some (n + 1)
      | none => matchElemsF fuel ps (d :: cs)
  | _ + 1, .lit _ :: _, [] => none
  | _ + 1, .cls _ :: _, [] => none
  | _ + 1, .ws1 :: _, [] => none
  | fuel + 1, .ws0 :: ps, [] => matchElemsF fuel ps []
  | fuel + 1, .notStar _ :: ps, [] => matchElemsF fuel ps []

/-- Match a pattern at the start of `cs`; `2*|cs| + |ps| + 1` bounds the
number of steps of `matchElemsF`, so this never runs out of fuel. -/
def matchElems (ps : List PatElem) (cs : List Char) : Option Nat :=
  matchElemsF (2 * cs.length + ps.length + 1) ps cs

/-- Whether the pattern matches at some position of the subject: this is
`RegExp.prototype.test` for the fragment above. -/
def patFound (ps : List PatElem) : List Char → Bool
  | [] => (matchElems ps []).isSome
  | c :: cs => (matchElems ps (c :: cs)).isSome || patFound ps cs

/-- Number of non-overlapping matches, scanning left to right: this is
`String.prototype.match` with a global regex, then taking the length. -/
def countPatF : Nat → List PatElem → List Char → Nat
  | 0, _, _ => 0
  | _ + 1, _, [] => 0
  | fuel + 1, ps, c :: rest =>
    match matchElems ps (c :: rest) with
    | some (n + 1) => 1 + countPatF fuel ps (rest.drop n)
    | some 0 => countPatF fuel ps rest
    | none => countPatF fuel ps rest

/-- Count matches of a pattern in a subject. -/
def countPat (ps : List PatElem) (cs : List Char) : Nat :=
  countPatF (cs.length + 1) ps cs

/-- Lower-cased character list of a string, modelling the `i` regex flag. -/
def lowerStr (s : String) : List Char := s.data.map Char.toLower

/-- A literal string as a pattern. -/
def pLit (s : String) : List PatElem := s.data.map PatElem.lit

/-- The quote class `['"`]` used by the require/import deny patterns
(apostrophe, double quote, backtick). -/
def quoteChars : List Char := [Char.ofNat 39, Char.ofNat 34, Char.ofNat 96]

/-! ### CodeExecutor: validation and strategy-selection predicates
(codeExecutor.js lines 360-486) -/

/-- Deny pattern for requiring the fs module (lines 460, each quote position
is the independent class, not a backreference, exactly as in the regex). -/
def requireFsPat : List PatElem :=
  pLit "require(" ++ [.cls quoteChars] ++ pLit "fs" ++ [.cls quoteChars] ++ pLit ")"

/-- Deny pattern for requiring child_process (line 461). -/
def requireChildProcessPat : List PatElem :=
  pLit "require(" ++ [.cls quoteChars] ++ pLit "child_process" ++ [.cls quoteChars] ++ pLit ")"

/-- Deny pattern for requiring os (line 462). -/
def requireOsPat : List PatElem :=
  pLit "require(" ++ [.cls quoteChars] ++ pLit "os" ++ [.cls quoteChars] ++ pLit ")"

/-- Deny pattern for process.exit (line 463). -/
def processExitPat : List PatElem := pLit "process.exit"

/-- Deny pattern for process.kill (line 464). -/
def processKillPat : List PatElem := pLit "process.kill"

/-- Deny pattern for a call to eval (line 465). -/
def evalCallPat : List PatElem := pLit "eval("

/-- Deny pattern for dynamic function construction (line 466; with the `i`
flag it also fires on any lower-case `function(`). -/
def functionCallPat : List PatElem := pLit "function("

/-- Deny pattern for a setTimeout call (line 467). -/
def setTimeoutCallPat : List PatElem := pLit "settimeout("

/-- Deny pattern for a setInterval call (line 468). -/
def setIntervalCallPat : List PatElem := pLit "setinterval("

/-- Deny pattern for `while (true)` with optional whitespace (line 469). -/
def whileTruePat : List PatElem :=
  pLit "while" ++ [.ws0] ++ pLit "(" ++ [.ws0] ++ pLit "true" ++ [.ws0] ++ pLit ")"

/-- Deny pattern for `for (;;)` with optional whitespace (line 470). -/
def forEverPat : List PatElem :=
  pLit "for" ++ [.ws0] ++ pLit "(" ++ [.ws0] ++ pLit ";" ++ [.ws0] ++ pLit ";" ++ [.ws0] ++ pLit ")"

/-- Deny pattern for a dynamic import of fs (line 471). -/
def importFsPat : List PatElem :=
  pLit "import(" ++ [.cls quoteChars] ++ pLit "fs" ++ [.cls quoteChars] ++ pLit ")"

/-- Deny pattern for a dynamic import of child_process (line 472). -/
def importChildProcessPat : List PatElem :=
  pLit "import(" ++ [.cls quoteChars] ++ pLit "child_process" ++ [.cls quoteChars] ++ pLit ")"

/-- CodeExecutor.hasDangerousOperations (lines 458-476): true when any of
the thirteen deny-list patterns matches somewhere in the code. -/
def hasDangerousOperations (code : String) : Bool :=
  let c := lowerStr code
  patFound requireFsPat c || patFound requireChildProcessPat c ||
  patFound requireOsPat c || patFound processExitPat c ||
  patFound processKillPat c || patFound evalCallPat c ||
  patFound functionCallPat c || patFound setTimeoutCallPat c ||
  patFound setIntervalCallPat c || patFound whileTruePat c ||
  patFound forEverPat c || patFound importFsPat c ||
  patFound importChildProcessPat c

/-- Pattern `for\s*\(`, one of the two loop patterns of
CodeExecutor.hasExcessiveLoops (line 480). -/
def forOpenPat : List PatElem := pLit "for" ++ [.ws0] ++ pLit "("

/-- Pattern `while\s*\(`, the other loop pattern (line 480), also one of
the complex-operation patterns (line 368). -/
def whileOpenPat : List PatElem := pLit "while" ++ [.ws0] ++ pLit "("

/-- Total number of loop-construct matches (lines 480-483). -/
def loopCount (code : String) : Nat :=
  countPat forOpenPat (lowerStr code) + countPat whileOpenPat (lowerStr code)

/-- CodeExecutor.hasExcessiveLoops (lines 479-486): more than 5 loop
constructs. -/
def hasExcessiveLoops (code : String) : Bool :=
  loopCount code > 5

/-- JavaScript String.prototype.trim on a character list (leading and
trailing whitespace removed). -/
def jsTrimL (l : List Char) : List Char :=
  ((l.dropWhile isWsChar).reverse.dropWhile isWsChar).reverse

/-- JavaScript String.prototype.trim. -/
def jsTrim (s : String) : String := String.mk (jsTrimL s.data)

/-- CodeExecutor.validateCode (lines 428-455): the four checks run in array
order and the first failing one throws its error code. -/
def validateCode (code : String) : Except String Unit :=
  if code.length > 10000 then .error "CODE_TOO_LONG"
  else if hasDangerousOperations code then .error "DANGEROUS_OPERATIONS_DETECTED"
  else if hasExcessiveLoops code then .error "EXCESSIVE_LOOPS_DETECTED"
  else if jsTrim code = "" then .error "EMPTY_CODE"
  else .ok ()

/-- Whether a validation outcome is a thrown error. -/
def isErr : Except String Unit → Bool
  | .error _ => true
  | .ok _ => false

/-- Complex-operation pattern `async\s+function` (line 363). -/
def asyncFunctionPat : List PatElem := pLit "async" ++ [.ws1] ++ pLit "function"

/-- Complex-operation pattern `await\s+` (line 364). -/
def awaitWsPat : List PatElem := pLit "await" ++ [.ws1]

/-- Complex-operation pattern `Promise\.` (line 365). -/
def promiseDotPat : List PatElem := pLit "promise."

/-- Complex-operation pattern `setTimeout` (line 366). -/
def setTimeoutNamePat : List PatElem := pLit "settimeout"

/-- Complex-operation pattern `setInterval` (line 367). -/
def setIntervalNamePat : List PatElem := pLit "setinterval"

/-- Complex-operation pattern `for\s*\([^;]*;[^;]*;[^)]*\)` (line 369). -/
def forComplexPat : List PatElem :=
  pLit "for" ++ [.ws0] ++ pLit "(" ++ [.notStar [Char.ofNat 59]] ++ pLit ";" ++
  [.notStar [Char.ofNat 59]] ++ pLit ";" ++ [.notStar [Char.ofNat 41]] ++ pLit ")"

/-- Complex-operation pattern `JSON\.parse` (line 370). -/
def jsonParseNamePat : List PatElem := pLit "json.parse"

/-- Complex-operation pattern `JSON\.stringify` (line 371). -/
def jsonStringifyNamePat : List PatElem := pLit "json.stringify"

/-- Complex-operation pattern `Math\.random` (line 372). -/
def mathRandomNamePat : List PatElem := pLit "math.random"

/-- CodeExecutor.hasComplexOperations (lines 361-376). -/
def hasComplexOperations (code : String) : Bool :=
  let c := lowerStr code
  patFound asyncFunctionPat c || patFound awaitWsPat c ||
  patFound promiseDotPat c || patFound setTimeoutNamePat c ||
  patFound setIntervalNamePat c || patFound whileOpenPat c ||
  patFound forComplexPat c || patFound jsonParseNamePat c ||
  patFound jsonStringifyNamePat c || patFound mathRandomNamePat c

/-- CodeExecutor.hasAsyncOperations (lines 379-389): each pattern is a bare
substring test. -/
def hasAsyncOperations (code : String) : Bool :=
  let c := lowerStr code
  patFound (pLit "async") c || patFound (pLit "await") c ||
  patFound (pLit "promise") c || patFound (pLit ".then(") c ||
  patFound (pLit ".catch(") c

/-- The parts of an executionContext consulted by strategy selection. -/
structure ExecutionContext where
  code : String
  language : String
  requireIsolation : Bool

/-- The shouldUseDocker disjunction of CodeExecutor.autoExecute
(lines 94-98), in source order. -/
def shouldUseDocker (ctx : ExecutionContext) : Bool :=
  ctx.language != "javascript" || hasComplexOperations ctx.code ||
  hasAsyncOperations ctx.code || ctx.requireIsolation

/-! ### CodeExecutor: vm2 execution, strategy auto-selection, result cache
(codeExecutor.js lines 42-187) -/

/-- The result object built by the CodeExecutor execution methods. -/
structure ExecResult where
  success : Bool
  output : Option JsVal
  error : Option String
  logs : List String
  executionTime : Nat
  strategy : String

/-- CodeExecutor.executeWithVM2 (lines 152-187).  The vm2 run itself is an
external event, passed in as its outcome: a returned value or a thrown
error message.  All paths return a result object; the catch arm folds the
thrown error into an unsuccessful result instead of re-throwing, and both
arms hard-code an empty logs array (line 170: vm2 console output is not
collected into the result). -/
def executeWithVM2 (runOutcome : Except String JsVal) (elapsed : Nat) : ExecResult :=
  match runOutcome with
  | .ok v => ⟨true, some v, none, [], elapsed, "vm2"⟩
  | .error e => ⟨false, none, some e, [], elapsed, "vm2"⟩

/-- The console.log substitute installed by
CodeExecutor.createSecureSandbox (lines 202-208): it appends the formatted
message to the closed-over logs buffer.  The argument formatting and
joining of line 204-206 happens before this point; `message` is the joined
text. -/
def sandboxConsoleLog (logs : List String) (message : String) : List String :=
  logs ++ ["LOG: " ++ message]

/-- The getLogs accessor of the secure sandbox (line 267) returns a copy of
the internal buffer; the buffer itself is collected but executeWithVM2
never reads it. -/
def sandboxGetLogs (logs : List String) : List String := logs

/-- Line 100 reads `dockerManager.healthCheck().status`: healthCheck is an
async function, so this accesses the property named status on the promise
object itself, which a promise does not have; the read yields undefined
whatever the backend's actual health verdict is.  (The awaited verdict
would be the argument.) -/
def unawaitedHealthStatus (_actualStatus : String) : JsVal := JsVal.null

/-- The health gate of line 100: `await <undefined> === 'HEALTHY'`.
Awaiting a non-promise yields the value itself, so this compares undefined
with the string and is false for every actual backend status. -/
def statusIsHealthy (actualStatus : String) : Bool :=
  match unawaitedHealthStatus actualStatus with
  | .str s => s = "HEALTHY"
  | _ => false

/-- CodeExecutor.autoExecute (lines 90-110).  `actualHealth` is what the
backend health check would report when awaited; `dockerOutcome` is the
outcome executeWithDocker would have (its throw falls back to vm2);
`vmOutcome` is the vm2 run outcome. -/
def autoExecute (actualHealth : String) (ctx : ExecutionContext)
    (dockerOutcome : Except String ExecResult) (vmOutcome : Except String JsVal)
    (elapsed : Nat) : ExecResult :=
  if shouldUseDocker ctx && statusIsHealthy actualHealth then
    match dockerOutcome with
    | .ok r => r
    | .error _ => executeWithVM2 vmOutcome elapsed
  else executeWithVM2 vmOutcome elapsed

/-- One entry of CodeExecutor.executionCache (lines 75-78). -/
structure CachedEntry where
  result : ExecResult
  timestamp : Nat

/-- The execution cache, a key-to-entry map. -/
abbrev ExecCache := List (String × CachedEntry)

/-- CodeExecutor.cacheTTL (line 37): 30 seconds in milliseconds. -/
def cacheTTL : Nat := 30000

/-- Map.prototype.set on the cache: replace or append. -/
def setEntry (c : ExecCache) (k : String) (e : CachedEntry) : ExecCache :=
  setKV c k e

/-- CodeExecutor.generateCacheKey (lines 392-401) concatenates the code
with the JSON of mock data, environment and request and base64-encodes the
result; base64 is injective, so the concatenation itself serves as key. -/
def generateCacheKey (code mockDataJson environmentJson requestJson : String) : String :=
  code ++ mockDataJson ++ environmentJson ++ requestJson

/-- The cache-miss path of CodeExecutor.executeCode (lines 54-81):
`runOutcome` is what the selected strategy execution would produce (a
result object, or a thrown error such as DOCKER_EXECUTION_FAILED, which
the catch re-throws without caching).  A successful result is stored under
the key with the current time; a returned-but-unsuccessful result and a
throw leave the cache untouched.  The third component counts strategy
executions performed (each docker-strategy execution allocates a
container; a cache hit performs none because executeCode returns before
the strategy switch). -/
def runAndCache (runOutcome : Except String ExecResult) (key : String)
    (now : Nat) (cache : ExecCache) : Except String ExecResult × ExecCache × Nat :=
  match runOutcome with
  | .ok r => (.ok r, if r.success then setEntry cache key ⟨r, now⟩ else cache, 1)
  | .error e => (.error e, cache, 1)

/-- The cache-lookup wrapper of CodeExecutor.executeCode: a fresh entry is
returned as-is with no execution at all; a stale or missing one leads to
`runAndCache` above (stale entries are not evicted here; the success-only
insertion overwrites them). -/
def executeCodeCached (runOutcome : Except String ExecResult) (key : String)
    (now : Nat) (cache : ExecCache) : Except String ExecResult × ExecCache × Nat :=
  match cache.lookup key with
  | some entry =>
    if now - entry.timestamp < cacheTTL then (.ok entry.result, cache, 0)
    else runAndCache runOutcome key now cache
  | none => runAndCache runOutcome key now cache

/-! ### DockerManager: container lifecycle and in-container execution
(codeExecutor.js lines 1311-1656) -/

/-- Registry entry of DockerManager.activeContainers (lines 1365-1369). -/
structure ContainerInfo where
  createdAt : Nat
  lastUsed : Nat

/-- The DockerManager state: the active-container registry, the configured
ceiling (`maxContainers`, line 1315, default 10), and a counter providing
fresh docker-assigned container ids. -/
structure DMState where
  activeContainers : List (String × ContainerInfo)
  maxContainers : Nat
  nextId : Nat

/-- Phase of one in-flight DockerManager.createContainer call
(lines 1322-1378).  The ceiling check of lines 1324-1326 runs
synchronously at call entry; a call that passes it is in flight across
the two awaited docker calls of lines 1361-1362 until the synchronous
registration of lines 1364-1369 runs; the ceiling throw of line 1325 and
the docker-failure throw of line 1376 end the call without registering.
Nothing serializes the check with the registration, so other calls'
checks can run while a call is in flight. -/
inductive CreatePhase where
  | pending
  | inflight
  | registered
  | limitRejected
  | dockerRejected
deriving DecidableEq

/-- One event-loop step of concurrent createContainer calls: run task
`t`'s synchronous ceiling check, resolve task `t`'s awaited docker calls
(followed immediately by its registration), or reject them
(CONTAINER_CREATION_FAILED, line 1376). -/
inductive CreateEvent where
  | check (t : Nat)
  | complete (t : Nat)
  | fail (t : Nat)

/-- Phase of task `t` (tasks not yet started are pending). -/
def getPhase (ps : List CreatePhase) (t : Nat) : CreatePhase := ps.getD t .pending

/-- Combined state of the registry (`this.activeContainers`) and of the
concurrent creation tasks. -/
structure CreateConcState where
  registry : List (String × ContainerInfo)
  phases : List CreatePhase

/-- One interleaved step of concurrent createContainer calls.  `check t`
is lines 1324-1326 run synchronously: it throws CONTAINER_LIMIT_EXCEEDED
when the registry is at or above the ceiling at that moment and
otherwise lets the call proceed into the awaited docker calls.
`complete t` is the resolution of those awaits followed by the
synchronous registration of lines 1364-1369 with creation and last-used
timestamps; no code re-checks the ceiling there.  `fail t` is a docker
rejection, line 1376. -/
def createStep (maxContainers now : Nat) (st : CreateConcState) :
    CreateEvent → CreateConcState
  | .check t =>
    if getPhase st.phases t = .pending then
      if st.registry.length ≥ maxContainers then
        { st with phases := st.phases.set t .limitRejected }
      else { st with phases := st.phases.set t .inflight }
    else st
  | .complete t =>
    if getPhase st.phases t = .inflight then
      { registry := ("container" ++ toString t, ⟨now, now⟩) :: st.registry,
        phases := st.phases.set t .registered }
    else st
  | .fail t =>
    if getPhase st.phases t = .inflight then
      { st with phases := st.phases.set t .dockerRejected }
    else st

/-- Run a schedule of creation events: one interleaving of the concurrent
calls on the single-threaded event loop. -/
def runCreateSchedule (maxContainers now : Nat) (st : CreateConcState)
    (es : List CreateEvent) : CreateConcState :=
  es.foldl (createStep maxContainers now) st

/-- DockerManager.forceStopContainer (lines 1522-1532): looks the container
up, kills it and removes it from the registry; a kill failure is caught and
only logged, leaving the entry in place (`killOk` is whether the docker
kill call succeeds). -/
def forceStopContainer (st : DMState) (cid : String) (killOk : Bool) : DMState :=
  match st.activeContainers.lookup cid with
  | none => st
  | some _ =>
    if killOk then
      { st with activeContainers := st.activeContainers.filter (fun p => p.1 != cid) }
    else st

/-- Registry update of line 1388 (`containerData.lastUsed = Date.now()`). -/
def touchContainer (l : List (String × ContainerInfo)) (cid : String) (now : Nat) :
    List (String × ContainerInfo) :=
  l.map (fun p => if p.1 = cid then (p.1, { p.2 with lastUsed := now }) else p)

/-- Observable output of one in-container run of a program produced by
DockerManager.wrapCode.  The stream parser of executeCode looks for one
JSON line in each of stdout and stderr; `stdoutJson`/`stderrJson` are the
parsed value of that line when one parses, and `stdoutRaw`/`stderrRaw` the
raw channel text (serialization across the pipe is elided: the structured
value stands for the JSON line it would print). -/
structure WrappedRun where
  stdoutJson : Option JsVal
  stdoutRaw : String
  stderrJson : Option JsVal
  stderrRaw : String
  exitCode : Nat

/-- The object printed to stdout by the wrapper on normal completion
(wrapCode lines 1640-1644). -/
def wrapResultObj (v : JsVal) (logs : List JsVal) : JsVal :=
  .obj [("success", .bool true), ("data", v), ("logs", .arr logs)]

/-- The object printed to stderr by the wrapper when the user code throws
(wrapCode lines 1648-1652), followed by `process.exit(1)`. -/
def wrapErrorObj (e : String) (logs : List JsVal) : JsVal :=
  .obj [("success", .bool false), ("error", .str e), ("logs", .arr logs)]

/-- Behaviour of the program built by DockerManager.wrapCode
(lines 1609-1656) as a function of the user code's outcome.  `logs` is the
buffer the console override accumulated and `userStdout` the text the
pass-through `originalConsoleLog` already printed.  A throwing user
program prints the error object to stderr and exits 1; it is never
re-thrown out of the wrapper. -/
def wrapCodeRun (userOutcome : Except String JsVal) (logs : List JsVal)
    (userStdout stderrText : String) : WrappedRun :=
  match userOutcome with
  | .ok v => ⟨some (wrapResultObj v logs), userStdout, none, "", 0⟩
  | .error e => ⟨none, userStdout, some (wrapErrorObj e logs), stderrText, 1⟩

/-- The resolved value of DockerManager.executeCode's stream-end handler. -/
structure RawResult where
  success : Bool
  output : JsVal
  error : JsVal
  logs : JsVal

/-- Strict-equality test of a possibly-absent value against `false`
(line 1449: `parsed.success !== false`). -/
def isBoolFalse : Option JsVal → Bool
  | some (.bool b) => !b
  | _ => false

/-- The output-parsing of DockerManager.executeCode's stream-end handler
(lines 1426-1486).  Success starts from the exit code (line 1429); a JSON
line in stdout supplies output (`parsed.data || parsed`), logs and the
success override; otherwise non-empty raw stdout becomes the output
string.  A JSON line in stderr then forces failure and supplies the error
(`parsedError.error || stderr.trim()`) and logs; non-JSON non-empty stderr
only sets the error to the raw text.  The resulting value is resolved, not
thrown. -/
def dmParse (r : WrappedRun) : RawResult :=
  let success0 := r.exitCode == 0
  let afterStdout : RawResult :=
    match r.stdoutJson with
    | some parsed =>
      { success := !isBoolFalse (parsed.get? "success"),
        output := jsOr (parsed.get? "data") parsed,
        logs := jsOr (parsed.get? "logs") (.arr []),
        error := if truthyOpt (parsed.get? "error") then
                   (parsed.get? "error").getD .null
                 else .null }
    | none =>
      { success := success0,
        output := if jsTrim r.stdoutRaw = "" then .null else .str (jsTrim r.stdoutRaw),
        logs := .arr [],
        error := .null }
  match r.stderrJson with
  | some parsedError =>
    { success := false,
      output := afterStdout.output,
      error := jsOr (parsedError.get? "error") (.str (jsTrim r.stderrRaw)),
      logs := jsOr (parsedError.get? "logs") (.arr []) }
  | none =>
    if jsTrim r.stderrRaw = "" then afterStdout
    else { afterStdout with error := .str (jsTrim r.stderrRaw) }

/-- DockerManager.executeCode (lines 1381-1498).  The container must be
registered (line 1383); its last-used stamp is refreshed; then either the
timeout fires — destroying the stream, force-stopping the container and
only then rejecting with EXECUTION_TIMEOUT (lines 1407-1411) — or the
stream ends and the parsed result is resolved. -/
def dmExecuteCode (st : DMState) (cid : String) (now : Nat)
    (timedOut killOk : Bool) (run : WrappedRun) :
    Except String RawResult × DMState :=
  match st.activeContainers.lookup cid with
  | none => (.error "CONTAINER_NOT_FOUND", st)
  | some _ =>
    let touched : DMState := { st with activeContainers := touchContainer st.activeContainers cid now }
    if timedOut then
      (.error "EXECUTION_TIMEOUT", forceStopContainer touched cid killOk)
    else
      (.ok (dmParse run), touched)

/-! ### JSON.parse and the String() coercion

SandboxService.parseOutput (lines 1166-1174) calls `JSON.parse(output)`
and falls back to the input when parsing throws.  `JSON.parse` first
coerces its argument to a string, so for non-string values the attempt
almost always fails (an object coerces to "[object Object]") and the value
is returned unchanged.  The parser below covers JSON objects, arrays,
strings with the common escapes, integer numerals and the three literals;
non-integer numerals and \u escapes are treated as unparseable, which only
narrows the set of strings the model can parse and is never exercised by
the values of interest here. -/

/-- Whitespace skipped by JSON.parse. -/
def isJsonWs (c : Char) : Bool :=
  c = ' ' || c = '\t' || c = '\n' || c = '\r'

/-- Drop leading JSON whitespace. -/
def skipWsL : List Char → List Char
  | [] => []
  | c :: cs => if isJsonWs c then skipWsL cs else c :: cs

/-- Consume an expected literal character sequence. -/
def parseLit : List Char → List Char → Option (List Char)
  | [], cs => some cs
  | _ :: _, [] => none
  | a :: l, c :: cs => if c = a then parseLit l cs else none

/-- Longest digit prefix and the remainder. -/
def takeDigits : List Char → List Char × List Char
  | [] => ([], [])
  | c :: cs =>
    if c.isDigit then
      let p := takeDigits cs
      (c :: p.1, p.2)
    else ([], c :: cs)

/-- Numeric value of a digit list. -/
def digitsToNat (ds : List Char) : Nat :=
  ds.foldl (fun a c => a * 10 + (c.toNat - 48)) 0

/-- Resolve one JSON string escape character. -/
def escChar (e : Char) : Option Char :=
  if e = Char.ofNat 34 then some (Char.ofNat 34)
  else if e = '\\' then some '\\'
  else if e = '/' then some '/'
  else if e = 'n' then some '\n'
  else if e = 't' then some '\t'
  else if e = 'r' then some '\r'
  else if e = 'b' then some (Char.ofNat 8)
  else if e = 'f' then some (Char.ofNat 12)
  else none

/-- Parse the body of a JSON string, after the opening quote. -/
def parseJsonString : List Char → Option (String × List Char)
  | [] => none
  | c :: cs =>
    if c = Char.ofNat 34 then some ("", cs)
    else if c = '\\' then
      match cs with
      | [] => none
      | e :: cs' =>
        match escChar e with
        | none => none
        | some ch => (parseJsonString cs').map (fun p => (String.singleton ch ++ p.1, p.2))
    else (parseJsonString cs).map (fun p => (String.singleton c ++ p.1, p.2))

/-- Build a JSON object from parsed members; a duplicated key keeps the
later member, as JavaScript object literals do. -/
def buildObj (pairs : List (String × JsVal)) : List (String × JsVal) :=
  pairs.foldl (fun acc kv => setKV acc kv.1 kv.2) []

mutual

/-- Parse one JSON value; fuel bounds the nesting and is supplied
generously by `jsonParse`. -/
def jsonParseValue : Nat → List Char → Option (JsVal × List Char)
  | 0, _ => none
  | fuel + 1, cs0 =>
    match skipWsL cs0 with
    | [] => none
    | c :: rest =>
      if c = 'n' then (parseLit "ull".data rest).map (fun r => (JsVal.null, r))
      else if c = 't' then (parseLit "rue".data rest).map (fun r => (JsVal.bool true, r))
      else if c = 'f' then (parseLit "alse".data rest).map (fun r => (JsVal.bool false, r))
      else if c = Char.ofNat 34 then
        (parseJsonString rest).map (fun p => (JsVal.str p.1, p.2))
      else if c = '-' then
        match takeDigits rest with
        | ([], _) => none
        | (ds, r) => some (JsVal.num (-(digitsToNat ds : Int)), r)
      else if c.isDigit then
        match takeDigits (c :: rest) with
        | ([], _) => none
        | (ds, r) => some (JsVal.num (digitsToNat ds), r)
      else if c = '[' then
        match skipWsL rest with
        | ']' :: r => some (JsVal.arr [], r)
        | cs' => (jsonParseArrItems fuel cs').map (fun p => (JsVal.arr p.1, p.2))
      else if c = Char.ofNat 123 then
        match skipWsL rest with
        | [] => none
        | c2 :: r =>
          if c2 = Char.ofNat 125 then some (JsVal.obj [], r)
          else (jsonParseObjItems fuel (c2 :: r)).map
            (fun p => (JsVal.obj (buildObj p.1), p.2))
      else none

/-- Parse the comma-separated items of a non-empty JSON array, up to and
including the closing bracket. -/
def jsonParseArrItems : Nat → List Char → Option (List JsVal × List Char)
  | 0, _ => none
  | fuel + 1, cs =>
    match jsonParseValue fuel cs with
    | none => none
    | some (v, rest) =>
      match skipWsL rest with
      | ',' :: r => (jsonParseArrItems fuel r).map (fun p => (v :: p.1, p.2))
      | ']' :: r => some ([v], r)
      | _ => none

/-- Parse the members of a non-empty JSON object, up to and including the
closing brace. -/
def jsonParseObjItems : Nat → List Char → Option (List (String × JsVal) × List Char)
  | 0, _ => none
  | fuel + 1, cs =>
    match skipWsL cs with
    | [] => none
    | c :: rest =>
      if c = Char.ofNat 34 then
        match parseJsonString rest with
        | none => none
        | some (k, r1) =>
          match skipWsL r1 with
          | ':' :: r2 =>
            match jsonParseValue fuel r2 with
            | none => none
            | some (v, r3) =>
              match skipWsL r3 with
              | ',' :: r4 => (jsonParseObjItems fuel r4).map (fun p => ((k, v) :: p.1, p.2))
              | c4 :: r4 =>
                if c4 = Char.ofNat 125 then some ([(k, v)], r4) else none
              | [] => none
          | _ => none
      else none

end

/-- JSON.parse of a whole string: one value and nothing but whitespace
after it, otherwise the parse throws (`none`). -/
def jsonParse (s : String) : Option JsVal :=
  match jsonParseValue (s.length + 1) s.data with
  | some (v, rest) => if (skipWsL rest).isEmpty then some v else none
  | none => none

mutual

/-- The JavaScript String() coercion, the implicit first step of
JSON.parse on a non-string argument.  An object becomes
"[object Object]"; an array joins its elements with commas. -/
def jsStringOf : JsVal → String
  | .null => "null"
  | .bool true => "true"
  | .bool false => "false"
  | .num n => toString n
  | .str s => s
  | .arr xs => jsStringOfList xs
  | .obj _ => "[object Object]"

/-- Comma-join of array elements under String(). -/
def jsStringOfList : List JsVal → String
  | [] => ""
  | [x] => jsStringOf x
  | x :: y :: rest => jsStringOf x ++ "," ++ jsStringOfList (y :: rest)

end

/-- SandboxService.parseOutput (lines 1166-1174): `JSON.parse` the
(coerced) output, falling back to the input itself when that throws. -/
def parseOutput (v : JsVal) : JsVal :=
  match jsonParse (jsStringOf v) with
  | some u => u
  | none => v

/-! ### SandboxService: the orchestrator (codeExecutor.js lines 509-1297) -/

/-- Conversion of an optional request-supplied identifier to the JavaScript
value the fill expressions see (`undefined`, modelled by null, when the
request did not supply one). -/
def optToJs : Option String → JsVal
  | some s => .str s
  | none => JsVal.null

/-- The completeSaveOp object of SandboxService.executeEndpoint
(lines 663-673): a spread of the sandbox-reported saveOp with the four
identifier fields set to `saveOp.<field> || <request context value>`.  The
`||` keeps the sandbox-reported value whenever it is truthy and falls back
to the request context only for a missing or falsy field. -/
def completeSaveOpOf (saveOp : JsVal) (mockDataCollectionId : Option String)
    (endpointId userId projectId : String) : JsVal :=
  let base := match saveOp with
    | .obj kvs => kvs
    | _ => []
  let kvs1 := setKV base "collectionId" (jsOr (saveOp.get? "collectionId") (optToJs mockDataCollectionId))
  let kvs2 := setKV kvs1 "endpointId" (jsOr (saveOp.get? "endpointId") (.str endpointId))
  let kvs3 := setKV kvs2 "userId" (jsOr (saveOp.get? "userId") (.str userId))
  let kvs4 := setKV kvs3 "projectId" (jsOr (saveOp.get? "projectId") (.str projectId))
  .obj kvs4

/-- The fields of the endpoint record consulted by the pipeline. -/
structure EndpointRec where
  code : String
  projectId : String

/-- A resolved value of mockDataService.saveFromExecution. -/
structure SaveResultRec where
  success : Bool
  message : String

/-- The caller-visible response object built at lines 785-796. -/
structure EndpointResponse where
  success : Bool
  data : Option JsVal
  error : JsVal
  logs : JsVal
  savedDataCount : Option Nat

/-- Observable side effects of one executeEndpoint call: containers
created and destroyed through DockerManager, execution-log records
written, whether the endpoint's callCount/lastCalled update ran
(lines 774-780), how many saveFromExecution calls were attempted, the
collection ids those calls targeted, and the save results collected into
the response. -/
structure Effects where
  containersCreated : Nat
  containersDestroyed : Nat
  logRecords : Nat
  callCountIncremented : Bool
  saveAttempts : Nat
  saveTargets : List JsVal
  saveResults : List SaveResultRec

/-- The all-zero effects record. -/
def noEff : Effects := ⟨0, 0, 0, false, 0, [], []⟩

/-- Externally determined outcomes of one executeEndpoint call: whether
the per-user rate limit is hit (checkRateLimit, lines 1177-1192), whether
the endpoint row exists, whether the caller passes the access check
(lines 584-591), the outcome of DockerManager.createContainer, the
outcome of DockerManager.executeCode, and the outcome of
mockDataService.saveFromExecution. -/
structure OrchestratorWorld where
  rateLimited : Bool
  endpointFound : Bool
  hasAccess : Bool
  createOutcome : Except String String
  execOutcome : Except String RawResult
  saveOutcome : Except String SaveResultRec

/-- The save-directive processing of lines 656-703, given the directive
found in the parsed output (when one was).  The completed directive is
built by the fill of lines 663-673; the log line at 675 dereferences
`completeSaveOp.data.length`, so a directive whose data field is absent or
null throws there and the surrounding catch (line 701) swallows it before
any save is attempted.  Otherwise saveFromExecution is called with the
completed directive's collection id; its success result is pushed onto
saveResults, while its failure is caught by the same catch and swallowed —
nothing is pushed.  Returns (attempts, collection ids targeted, results
pushed). -/
def saveProcessing (directive : Option JsVal) (mockDataCollectionId : Option String)
    (endpointId userId projectId : String) (saveOutcome : Except String SaveResultRec) :
    Nat × List JsVal × List SaveResultRec :=
  match directive with
  | some saveOp =>
    let complete := completeSaveOpOf saveOp mockDataCollectionId endpointId userId projectId
    match complete.get? "data" with
    | none => (0, [], [])
    | some .null => (0, [], [])
    | some _ =>
      let target := (complete.get? "collectionId").getD .null
      match saveOutcome with
      | .ok sr => (1, [target], [sr])
      | .error _ => (1, [target], [])
  | none => (0, [], [])

/-- SandboxService.executeEndpoint (lines 517-831).  The stages run in
source order: rate limit, endpoint lookup, access check, validation (with
its own log record and re-thrown SANDBOX_VALIDATION_FAILED error,
lines 593-617, all before any container exists), container creation, the
in-container run, the save-directive check on the parsed output
(lines 650-703, whose catch swallows any error raised while processing
the save, pushing nothing), the log record, the unconditional endpoint
stats update, and the response.  The saveQueue branch of lines 707-745 is
skipped: nothing in the service ever inserts into `this.saveQueue`, so the
queue is empty at this point of every call.  A rejection from creation or
execution is logged and re-thrown, with the finally block destroying the
container when one exists. -/
def executeEndpoint (w : OrchestratorWorld) (endpoint : EndpointRec)
    (mockDataCollectionId : Option String) (endpointId userId : String) :
    Except String EndpointResponse × Effects :=
  if w.rateLimited then (.error "RATE_LIMIT_EXCEEDED", noEff)
  else if !w.endpointFound then (.error "ENDPOINT_NOT_FOUND", noEff)
  else if !w.hasAccess then (.error "ENDPOINT_ACCESS_DENIED", noEff)
  else
    match validateCode endpoint.code with
    | .error msg =>
      (.error ("SANDBOX_VALIDATION_FAILED: " ++ msg), { noEff with logRecords := 1 })
    | .ok _ =>
      match w.createOutcome with
      | .error e => (.error e, { noEff with logRecords := 1 })
      | .ok _cid =>
        match w.execOutcome with
        | .error e =>
          (.error e,
           { noEff with containersCreated := 1, containersDestroyed := 1, logRecords := 1 })
        | .ok execResult =>
          let out := parseOutput execResult.output
          let dataField := out.get? "data"
          let saveOpField := dataField.bind (fun d => d.get? "_saveOperation")
          let directive :=
            if out.truthy && truthyOpt dataField && truthyOpt saveOpField then
              saveOpField
            else none
          let saveStep :=
            saveProcessing directive mockDataCollectionId endpointId userId
              endpoint.projectId w.saveOutcome
          let results := saveStep.2.2
          let resp : EndpointResponse :=
            { success := execResult.success,
              data := if execResult.success then some (parseOutput execResult.output) else none,
              error := execResult.error,
              logs := jsOr (some execResult.logs) (.arr []),
              savedDataCount := if results.length > 0 then some results.length else none }
          (.ok resp,
           { containersCreated := 1, containersDestroyed := 1, logRecords := 1,
             callCountIncremented := true, saveAttempts := saveStep.1,
             saveTargets := saveStep.2.1, saveResults := results })

/-- Success flag of a resolved response (`none` when the call threw). -/
def respSuccess : Except String EndpointResponse → Option Bool
  | .ok r => some r.success
  | .error _ => none

/-- savedData count of a resolved response (`none` when the call threw;
`some none` is a response whose savedData is null). -/
def savedCount : Except String EndpointResponse → Option (Option Nat)
  | .ok r => some r.savedDataCount
  | .error _ => none


/-! ### Concrete instances used by the claim theorems -/

def c1RawRes : RawResult :=
  { success := true,
    output := .obj [("data", .obj [("_saveOperation",
      .obj [("collectionId", .str "attacker-col"), ("data", .arr [])])])],
    error := .null, logs := .arr [] }

def c1World : OrchestratorWorld :=
  { rateLimited := false, endpointFound := true, hasAccess := true,
    createOutcome := .ok "container0", execOutcome := .ok c1RawRes,
    saveOutcome := .ok ⟨true, "saved"⟩ }

def c8FailWorld : OrchestratorWorld :=
  { rateLimited := false, endpointFound := true, hasAccess := true,
    createOutcome := .ok "container0",
    execOutcome := .ok ⟨false, .null, .str "TypeError: boom", .arr []⟩,
    saveOutcome := .ok ⟨true, "saved"⟩ }

def c9RawRes : RawResult :=
  { success := true,
    output := .obj [("data", .obj [("_saveOperation",
      .obj [("collectionId", .str "col-9"), ("data", .arr [.num 1])])])],
    error := .null, logs := .arr [] }

def c9World : OrchestratorWorld :=
  { rateLimited := false, endpointFound := true, hasAccess := true,
    createOutcome := .ok "container0", execOutcome := .ok c9RawRes,
    saveOutcome := .error "DB_WRITE_FAILED" }

/-! ### Association-list and save-processing lemmas -/

theorem lookup_setKV_self {α : Type} (l : List (String × α)) (k : String) (v : α) :
    (setKV l k v).lookup k = some v := by
  induction l with
  | nil => simp [setKV, List.lookup]
  | cons hd tl ih =>
    obtain ⟨k', v'⟩ := hd
    by_cases h : k' = k
    · simp [setKV, h, List.lookup]
    · have hb : (k == k') = false := by simp [Ne.symm h]
      simp [setKV, h, List.lookup, hb, ih]

theorem lookup_setKV_ne {α : Type} (l : List (String × α)) (k k' : String) (v : α)
    (h : k' ≠ k) : (setKV l k v).lookup k' = l.lookup k' := by
  induction l with
  | nil =>
    have hb : (k' == k) = false := by simp [h]
    simp [setKV, List.lookup, hb]
  | cons hd tl ih =>
    obtain ⟨ka, va⟩ := hd
    by_cases hk : ka = k
    · subst hk
      have hb : (k' == ka) = false := by simp [h]
      simp [setKV, List.lookup, hb]
    · cases hka : k' == ka <;> simp [setKV, hk, List.lookup, hka, ih]

theorem lookup_filter_ne_none {α : Type} (l : List (String × α)) (cid : String) :
    (l.filter (fun p => p.1 != cid)).lookup cid = none := by
  induction l with
  | nil => rfl
  | cons hd tl ih =>
    obtain ⟨k, v⟩ := hd
    by_cases h : k = cid
    · have hb : (k != cid) = false := by simp [h]
      simpa [List.filter_cons, hb] using ih
    · have hb : (k != cid) = true := by simp [h]
      have hb2 : (cid == k) = false := by simp [Ne.symm h]
      simp [List.filter_cons, hb, List.lookup, hb2, ih]

theorem lookup_forceStop (st : DMState) (cid : String) :
    ((forceStopContainer st cid true).activeContainers).lookup cid = none := by
  unfold forceStopContainer
  cases hl : st.activeContainers.lookup cid with
  | none => simpa using hl
  | some i => simp [lookup_filter_ne_none]

theorem mem_setKV {α : Type} (l : List (String × α)) (k : String) (v : α)
    (kv : String × α) (h : kv ∈ setKV l k v) : kv = (k, v) ∨ kv ∈ l := by
  induction l with
  | nil => simpa [setKV] using h
  | cons hd tl ih =>
    obtain ⟨ka, va⟩ := hd
    by_cases hk : ka = k
    · simp [setKV, hk] at h
      rcases h with h | h
      · left; simpa using h
      · right; simp [h]
    · simp [setKV, hk] at h
      rcases h with h | h
      · right; simp [h]
      · rcases ih h with h' | h'
        · left; exact h'
        · right; simp [h']

theorem saveProcessing_error_results (d : Option JsVal) (mcid : Option String)
    (eid uid pid : String) (e : String) :
    (saveProcessing d mcid eid uid pid (.error e)).2.2 = [] := by
  cases d with
  | none => rfl
  | some saveOp =>
    unfold saveProcessing
    cases hd : (completeSaveOpOf saveOp mcid eid uid pid).get? "data" with
    | none => simp [hd]
    | some v => cases v <;> simp [hd]

/-! ### The claims -/

/-- Counterexample to C1 as stated: the request supplies collection id
request-col, the sandbox output reports collection id attacker-col in its
save directive, and the save the orchestrator applies targets the
sandbox-reported id — the request-supplied one does not take precedence. -/
theorem C1_counterexample :
    (executeEndpoint c1World ⟨"return save()", "proj-1"⟩ (some "request-col")
        "ep-1" "user-1").2.saveTargets = [JsVal.str "attacker-col"]
    ∧ "attacker-col" ≠ "request-col" :=
  ⟨rfl, by decide⟩

/-- C1 amended: in the completed directive the sandbox-reported collection
id takes precedence whenever it is present and truthy; the authoritative
request-supplied id fills the field only when the sandbox-reported one is
missing or falsy.  (The same fill shape applies to endpointId, userId and
projectId.) -/
theorem C1_fill_amended :
    ∀ (kvs : List (String × JsVal)) (req : Option String) (eid uid pid : String),
      (∀ v, kvs.lookup "collectionId" = some v → v.truthy = true →
        (completeSaveOpOf (.obj kvs) req eid uid pid).get? "collectionId" = some v)
      ∧ (kvs.lookup "collectionId" = none →
        (completeSaveOpOf (.obj kvs) req eid uid pid).get? "collectionId" =
          some (optToJs req))
      ∧ (∀ v, kvs.lookup "collectionId" = some v → v.truthy = false →
        (completeSaveOpOf (.obj kvs) req eid uid pid).get? "collectionId" =
          some (optToJs req)) := by
  intro kvs req eid uid pid
  have key : (completeSaveOpOf (.obj kvs) req eid uid pid).get? "collectionId" =
      some (jsOr (kvs.lookup "collectionId") (optToJs req)) := by
    simp only [completeSaveOpOf, JsVal.get?]
    rw [lookup_setKV_ne _ _ _ _ (by decide),
        lookup_setKV_ne _ _ _ _ (by decide),
        lookup_setKV_ne _ _ _ _ (by decide),
        lookup_setKV_self]
  refine ⟨?_, ?_, ?_⟩
  · intro v hv ht
    rw [key, hv]
    simp [jsOr, ht]
  · intro hn
    rw [key, hn]
    simp [jsOr]
  · intro v hv ht
    rw [key, hv]
    simp [jsOr, ht]

/-- Concrete instance of the amended C1: both identifiers present, the
sandbox-reported one wins. -/
theorem C1_witness :
    (completeSaveOpOf (.obj [("collectionId", .str "sandbox-col")]) (some "req-col")
      "ep" "u" "p").get? "collectionId" = some (.str "sandbox-col") :=
  (C1_fill_amended [("collectionId", .str "sandbox-col")] (some "req-col")
    "ep" "u" "p").1 (.str "sandbox-col") rfl rfl

/-- Counterexample to C2 as stated: `JSON.parse(x)` contains no
asynchronous construct, targets the default language and requests no
isolation, yet strategy selection escalates it to Heavy (the
complex-operation patterns also escalate); and even code that does use
async constructs, with the backend genuinely HEALTHY and a docker
execution available, runs under the Light (vm2) strategy, because line 100
compares the status property of the un-awaited health-check promise with
HEALTHY, which never holds — so the fallback is not tied to an UNHEALTHY
verdict and no downgrade is recorded anywhere. -/
theorem C2_counterexample :
    shouldUseDocker ⟨"JSON.parse(x)", "javascript", false⟩ = true
    ∧ hasAsyncOperations "JSON.parse(x)" = false
    ∧ (autoExecute "HEALTHY" ⟨"await fetch()", "javascript", false⟩
        (.ok ⟨true, some .null, none, [], 1, "docker"⟩) (.ok .null) 5).strategy = "vm2" :=
  ⟨rfl, rfl, rfl⟩

/-- C2 amended: selection defaults to Light and the heavy-escalation flag
is set when the code uses async constructs, matches a complex-operation
pattern, targets a non-default language, or isolation is requested; but
the health gate of line 100 reads the status property of the un-awaited
promise and never equals HEALTHY, so auto-execution always runs the Light
(vm2) strategy regardless of the backend's actual health, and no record of
a downgrade is produced. -/
theorem C2_strategy_amended :
    (∀ (h : String) (ctx : ExecutionContext) (d : Except String ExecResult)
        (v : Except String JsVal) (t : Nat),
      (autoExecute h ctx d v t).strategy = "vm2")
    ∧ (∀ ctx : ExecutionContext, hasAsyncOperations ctx.code = true →
        shouldUseDocker ctx = true)
    ∧ (∀ ctx : ExecutionContext, ctx.language ≠ "javascript" →
        shouldUseDocker ctx = true)
    ∧ (∀ ctx : ExecutionContext, ctx.requireIsolation = true →
        shouldUseDocker ctx = true)
    ∧ (∀ ctx : ExecutionContext, hasComplexOperations ctx.code = true →
        shouldUseDocker ctx = true)
    ∧ (∀ ctx : ExecutionContext, ctx.language = "javascript" →
        ctx.requireIsolation = false → hasAsyncOperations ctx.code = false →
        hasComplexOperations ctx.code = false → shouldUseDocker ctx = false) := by
  refine ⟨?_, ?_, ?_, ?_, ?_, ?_⟩
  · intro h ctx d v t
    have hg : statusIsHealthy h = false := rfl
    simp only [autoExecute, hg, Bool.and_false, if_false]
    cases v <;> rfl
  · intro ctx h
    simp [shouldUseDocker, h]
  · intro ctx h
    simp [shouldUseDocker, bne_iff_ne, h]
  · intro ctx h
    simp [shouldUseDocker, h]
  · intro ctx h
    simp [shouldUseDocker, h]
  · intro ctx h1 h2 h3 h4
    simp [shouldUseDocker, h1, h2, h3, h4]

/-- Concrete instance of the amended C2: async code sets the escalation
flag, and execution still comes back with the vm2 strategy even when the
backend reports UNHEALTHY and docker would fail. -/
theorem C2_witness :
    shouldUseDocker ⟨"await x", "javascript", false⟩ = true ∧
    (autoExecute "UNHEALTHY" ⟨"return 1", "javascript", false⟩
      (.error "down") (.ok .null) 3).strategy = "vm2" :=
  ⟨C2_strategy_amended.2.1 ⟨"await x", "javascript", false⟩ rfl,
   C2_strategy_amended.1 "UNHEALTHY" ⟨"return 1", "javascript", false⟩
     (.error "down") (.ok .null) 3⟩

/-- C3: when the wall-clock deadline of an in-container run expires, the
owning container is force-stopped (and, the docker kill call succeeding,
deregistered) before the call rejects with EXECUTION_TIMEOUT: at the
moment the error is returned the container is no longer live. -/
theorem C3_timeout_destroys_before_error :
    ∀ (st : DMState) (cid : String) (now : Nat) (run : WrappedRun),
      st.activeContainers.lookup cid ≠ none →
      (dmExecuteCode st cid now true true run).1 = Except.error "EXECUTION_TIMEOUT" ∧
      ((dmExecuteCode st cid now true true run).2.activeContainers).lookup cid = none := by
  intro st cid now run h
  unfold dmExecuteCode
  cases hl : st.activeContainers.lookup cid with
  | none => exact absurd hl h
  | some info =>
    refine ⟨by simp [hl], ?_⟩
    simpa [hl] using lookup_forceStop
      { st with activeContainers := touchContainer st.activeContainers cid now } cid

/-- Concrete instance of C3: a registered container, a fired deadline. -/
theorem C3_witness :
    (dmExecuteCode ⟨[("container0", ⟨0, 0⟩)], 10, 1⟩ "container0" 5 true true
        ⟨none, "", none, "", 0⟩).1 = Except.error "EXECUTION_TIMEOUT" ∧
    ((dmExecuteCode ⟨[("container0", ⟨0, 0⟩)], 10, 1⟩ "container0" 5 true true
        ⟨none, "", none, "", 0⟩).2.activeContainers).lookup "container0" = none :=
  C3_timeout_destroys_before_error ⟨[("container0", ⟨0, 0⟩)], 10, 1⟩ "container0" 5
    ⟨none, "", none, "", 0⟩ (by simp [List.lookup])

/-- C4 amended: every cache entry records a successful result (the
success-only insertion preserves the invariant through any call), and when
the first of two identical-keyed calls within the TTL produced a
successful result, the second returns that result unmodified with zero
strategy executions, hence without allocating any environment.  (The
original claim's unconditional second-call clause fails when the first
result was unsuccessful: see the counterexample.) -/
theorem C4_cache_amended :
    (∀ (ro : Except String ExecResult) (k : String) (now : Nat) (c : ExecCache),
      (∀ kv ∈ c, kv.2.result.success = true) →
      ∀ kv ∈ (executeCodeCached ro k now c).2.1, kv.2.result.success = true)
    ∧ (∀ (r1 : ExecResult) (ro2 : Except String ExecResult) (k : String)
        (t1 t2 : Nat) (c : ExecCache),
      c.lookup k = none → r1.success = true → t2 - t1 < cacheTTL →
      (executeCodeCached (.ok r1) k t1 c).2.2 = 1 ∧
      (executeCodeCached ro2 k t2 (executeCodeCached (.ok r1) k t1 c).2.1).1 = .ok r1 ∧
      (executeCodeCached ro2 k t2 (executeCodeCached (.ok r1) k t1 c).2.1).2.2 = 0) := by
  constructor
  · intro ro k now c hc kv hm
    have hrun : ∀ kv ∈ (runAndCache ro k now c).2.1, kv.2.result.success = true := by
      intro kv hm
      unfold runAndCache at hm
      match ro with
      | .error e => exact hc kv hm
      | .ok r =>
        by_cases hs : r.success
        · simp [hs, setEntry] at hm
          rcases mem_setKV c k ⟨r, now⟩ kv hm with h | h
          · rw [h]; exact hs
          · exact hc kv h
        · simp [hs] at hm
          exact hc kv hm
    unfold executeCodeCached at hm
    split at hm
    · split at hm
      · exact hc kv hm
      · exact hrun kv hm
    · exact hrun kv hm
  · intro r1 ro2 k t1 t2 c hln hs httl
    have h1 : executeCodeCached (.ok r1) k t1 c = (.ok r1, setEntry c k ⟨r1, t1⟩, 1) := by
      simp [executeCodeCached, runAndCache, hln, hs]
    have h2 : (setEntry c k ⟨r1, t1⟩).lookup k = some ⟨r1, t1⟩ :=
      lookup_setKV_self c k ⟨r1, t1⟩
    refine ⟨by rw [h1], ?_, ?_⟩ <;>
      rw [h1] <;> simp [executeCodeCached, h2, httl]

/-- Counterexample to C4 as stated: an unsuccessful result is not cached,
so a second call with the identical key one millisecond later (well inside
the 30000 ms TTL) performs a fresh strategy execution instead of returning
a cached result without allocating. -/
theorem C4_counterexample :
    (executeCodeCached (.ok ⟨false, none, some "RuntimeError: x", [], 3, "docker"⟩)
        "k" 0 []).2.1 = [] ∧
    (executeCodeCached (.ok ⟨false, none, some "RuntimeError: x", [], 3, "docker"⟩)
        "k" 1
        (executeCodeCached (.ok ⟨false, none, some "RuntimeError: x", [], 3, "docker"⟩)
          "k" 0 []).2.1).2.2 = 1 :=
  ⟨rfl, rfl⟩

/-- Concrete instance of the amended C4: a successful first call, a second
call 10 ms later that returns the cached result with zero executions. -/
theorem C4_witness :
    (executeCodeCached (.ok ⟨true, some (.str "ok"), none, [], 2, "vm2"⟩) "key" 0 []).2.2 = 1 ∧
    (executeCodeCached (.error "DOCKER_EXECUTION_FAILED") "key" 10
        (executeCodeCached (.ok ⟨true, some (.str "ok"), none, [], 2, "vm2"⟩) "key" 0 []).2.1).1 =
      .ok ⟨true, some (.str "ok"), none, [], 2, "vm2"⟩ ∧
    (executeCodeCached (.error "DOCKER_EXECUTION_FAILED") "key" 10
        (executeCodeCached (.ok ⟨true, some (.str "ok"), none, [], 2, "vm2"⟩) "key" 0 []).2.1).2.2 = 0 :=
  C4_cache_amended.2 ⟨true, some (.str "ok"), none, [], 2, "vm2"⟩
    (.error "DOCKER_EXECUTION_FAILED") "key" 0 10 [] rfl rfl (by decide)

set_option maxRecDepth 4000 in
/-- C5: demonstration of the claim's failure on the program.  With the
default ceiling of 10 and eleven concurrent creation calls, the
interleaving in which all eleven synchronous ceiling checks run while the
registry is still empty (every docker round-trip in flight together)
registers all eleven containers: no attempt throws
CONTAINER_LIMIT_EXCEEDED and the live count reaches 11, above the
ceiling.  The check does enforce the ceiling against the registry as it
stands at check time: the fully serialized schedule of the same eleven
calls registers ten and rejects the eleventh with
CONTAINER_LIMIT_EXCEEDED, which is the behaviour the claim (and the
check's evident intent) describes. -/
theorem C5_ceiling_race :
    (runCreateSchedule 10 0 ⟨[], List.replicate 11 .pending⟩
        ((List.range 11).map CreateEvent.check ++
         (List.range 11).map CreateEvent.complete)).registry.length = 11
    ∧ (runCreateSchedule 10 0 ⟨[], List.replicate 11 .pending⟩
        ((List.range 11).map CreateEvent.check ++
         (List.range 11).map CreateEvent.complete)).phases =
        List.replicate 11 CreatePhase.registered
    ∧ (runCreateSchedule 10 0 ⟨[], List.replicate 11 .pending⟩
        ((List.range 11).flatMap
          (fun t => [CreateEvent.check t, CreateEvent.complete t]))).registry.length = 10
    ∧ getPhase (runCreateSchedule 10 0 ⟨[], List.replicate 11 .pending⟩
        ((List.range 11).flatMap
          (fun t => [CreateEvent.check t, CreateEvent.complete t]))).phases 10 =
        CreatePhase.limitRejected := by
  refine ⟨?_, ?_, ?_, ?_⟩ <;> decide

/-- Counterexample to C6 as stated: code reaching the filesystem through
require of node:fs passes validation untouched (the deny pattern only
recognizes the exact quoted module name fs), and the rejections of eval
and of process control both carry the same category code, which names
neither construct. -/
theorem C6_counterexample :
    validateCode "require(\x27node:fs\x27).readFileSync(\x27/etc/hosts\x27)" = .ok ()
    ∧ validateCode "eval(x)" = .error "DANGEROUS_OPERATIONS_DETECTED"
    ∧ validateCode "process.exit()" = .error "DANGEROUS_OPERATIONS_DETECTED" :=
  ⟨rfl, rfl, rfl⟩

/-- C6 amended: validation rejects every code longer than the 10000
character ceiling, every code matching one of the thirteen deny-list
patterns (quoted require of exactly fs, child_process or os,
process.exit, process.kill, the call prefixes eval( and Function(,
setTimeout( and setInterval(, while(true) and for(;;), and quoted
dynamic import of exactly fs or child_process; there is no import
pattern for os, so a dynamic import of the quoted name os passes
validation), and every code with more than 5 loop constructs; a request
whose code fails validation creates zero containers; and the error names
one of four violation categories, not the offending construct itself. -/
theorem C6_validation_amended :
    (∀ code : String, code.length > 10000 → validateCode code = .error "CODE_TOO_LONG")
    ∧ (∀ code : String, patFound requireFsPat (lowerStr code) = true →
        isErr (validateCode code) = true)
    ∧ (∀ code : String, patFound evalCallPat (lowerStr code) = true →
        isErr (validateCode code) = true)
    ∧ (∀ code : String, patFound functionCallPat (lowerStr code) = true →
        isErr (validateCode code) = true)
    ∧ (∀ code : String, loopCount code > 5 → isErr (validateCode code) = true)
    ∧ (∀ (w : OrchestratorWorld) (ep : EndpointRec) (mcid : Option String)
        (eid uid : String), isErr (validateCode ep.code) = true →
        (executeEndpoint w ep mcid eid uid).2.containersCreated = 0)
    ∧ (∀ (code e : String), validateCode code = .error e →
        e = "CODE_TOO_LONG" ∨ e = "DANGEROUS_OPERATIONS_DETECTED" ∨
        e = "EXCESSIVE_LOOPS_DETECTED" ∨ e = "EMPTY_CODE")
    ∧ validateCode "import(\x27os\x27)" = .ok () := by
  have dangerous : ∀ code : String, hasDangerousOperations code = true →
      isErr (validateCode code) = true := by
    intro code hd
    unfold validateCode
    split
    · rfl
    · simp [hd, isErr]
  refine ⟨?_, ?_, ?_, ?_, ?_, ?_, ?_, ?_⟩
  · intro code h
    unfold validateCode
    rw [if_pos h]
  · intro code h
    exact dangerous code (by simp [hasDangerousOperations, h])
  · intro code h
    exact dangerous code (by simp [hasDangerousOperations, h])
  · intro code h
    exact dangerous code (by simp [hasDangerousOperations, h])
  · intro code h
    have hl : hasExcessiveLoops code = true := by
      simpa [hasExcessiveLoops] using h
    unfold validateCode
    split
    · rfl
    · split
      · rfl
      · simp [hl, isErr]
  · intro w ep mcid eid uid h
    unfold executeEndpoint
    split
    · rfl
    · split
      · rfl
      · split
        · rfl
        · split
          · rfl
          · next heq =>
            rw [heq] at h
            simp [isErr] at h
  · intro code e h
    unfold validateCode at h
    split at h
    · simp only [Except.error.injEq] at h
      exact Or.inl h.symm
    · split at h
      · simp only [Except.error.injEq] at h
        exact Or.inr (Or.inl h.symm)
      · split at h
        · simp only [Except.error.injEq] at h
          exact Or.inr (Or.inr (Or.inl h.symm))
        · split at h
          · simp only [Except.error.injEq] at h
            exact Or.inr (Or.inr (Or.inr h.symm))
          · exact absurd h (by simp)
  · rfl

/-- Concrete instance of the amended C6: six loop constructs are rejected,
and a rejected request creates zero containers. -/
theorem C6_witness :
    isErr (validateCode "for(for(for(for(for(for(") = true ∧
    (executeEndpoint ⟨false, true, true, .ok "container0",
        .ok ⟨true, .null, .null, .arr []⟩, .ok ⟨true, "saved"⟩⟩
      ⟨"for(for(for(for(for(for(", "proj-6"⟩ none "ep-6" "user-6").2.containersCreated = 0 :=
  ⟨C6_validation_amended.2.2.2.2.1 "for(for(for(for(for(for(" (by decide),
   C6_validation_amended.2.2.2.2.2.1 ⟨false, true, true, .ok "container0",
      .ok ⟨true, .null, .null, .arr []⟩, .ok ⟨true, "saved"⟩⟩
     ⟨"for(for(for(for(for(for(", "proj-6"⟩ none "ep-6" "user-6"
     (C6_validation_amended.2.2.2.2.1 "for(for(for(for(for(for(" (by decide))⟩

/-- C7: a runtime error thrown by sandboxed user code becomes a normally
returned unsuccessful result with the error populated, under both
strategies: executeWithVM2 catches the throw and returns a result object
(it has no throwing path), and the docker wrapper prints the error object
to stderr, from which the stream parser resolves an unsuccessful result
carrying the message. -/
theorem C7_runtime_error_captured :
    ∀ (e : String) (t : Nat) (logsJ : List JsVal) (prior stext : String),
      (executeWithVM2 (.error e) t).success = false ∧
      (executeWithVM2 (.error e) t).error = some e ∧
      (e ≠ "" →
        (dmParse (wrapCodeRun (.error e) logsJ prior stext)).success = false ∧
        (dmParse (wrapCodeRun (.error e) logsJ prior stext)).error = .str e) := by
  intro e t logsJ prior stext
  refine ⟨rfl, rfl, fun h => ⟨rfl, ?_⟩⟩
  have hb : (e != "") = true := by simpa using h
  simp [dmParse, wrapCodeRun, wrapErrorObj, JsVal.get?, List.lookup, jsOr,
    JsVal.truthy, hb]

/-- Concrete instance of C7: a thrown TypeError message. -/
theorem C7_witness :
    (executeWithVM2 (.error "TypeError: boom") 7).success = false ∧
    (executeWithVM2 (.error "TypeError: boom") 7).error = some "TypeError: boom" ∧
    (dmParse (wrapCodeRun (.error "TypeError: boom") [] "" "raw")).success = false ∧
    (dmParse (wrapCodeRun (.error "TypeError: boom") [] "" "raw")).error = .str "TypeError: boom" := by
  have h := C7_runtime_error_captured "TypeError: boom" 7 [] "" "raw"
  exact ⟨h.1, h.2.1, (h.2.2 (by decide)).1, (h.2.2 (by decide)).2⟩

/-- Counterexample to C8 as stated: an execution that resolves with an
unsuccessful result (success false, a captured runtime error) still runs
the endpoint stats update — the call counter and last-called timestamp are
incremented although the execution result is unsuccessful. -/
theorem C8_counterexample :
    respSuccess ((executeEndpoint c8FailWorld ⟨"return 1", "proj-8"⟩ none
        "ep-8" "user-8").1) = some false
    ∧ (executeEndpoint c8FailWorld ⟨"return 1", "proj-8"⟩ none
        "ep-8" "user-8").2.callCountIncremented = true :=
  ⟨rfl, rfl⟩

/-- C8 amended: the endpoint's call counter and last-called timestamp are
updated after every execution that resolves, successful or not; they are
left unchanged exactly by the paths that throw before the update — a
rejected execution (such as a timeout or container error) and a validation
failure. -/
theorem C8_stats_amended :
    ∀ (w : OrchestratorWorld) (ep : EndpointRec) (mcid : Option String)
      (eid uid : String),
      (∀ r : RawResult, w.rateLimited = false → w.endpointFound = true →
        w.hasAccess = true → validateCode ep.code = .ok () →
        (∃ cid, w.createOutcome = .ok cid) → w.execOutcome = .ok r →
        (executeEndpoint w ep mcid eid uid).2.callCountIncremented = true)
      ∧ (∀ e, w.execOutcome = .error e →
        (executeEndpoint w ep mcid eid uid).2.callCountIncremented = false)
      ∧ (isErr (validateCode ep.code) = true →
        (executeEndpoint w ep mcid eid uid).2.callCountIncremented = false) := by
  intro w ep mcid eid uid
  refine ⟨?_, ?_, ?_⟩
  · intro r h1 h2 h3 hv hcr he
    obtain ⟨cid, hc⟩ := hcr
    simp [executeEndpoint, h1, h2, h3, hv, hc, he]
  · intro e he
    unfold executeEndpoint
    split
    · rfl
    · split
      · rfl
      · split
        · rfl
        · split
          · rfl
          · split
            · rfl
            · rw [he]
              rfl
  · intro h
    unfold executeEndpoint
    split
    · rfl
    · split
      · rfl
      · split
        · rfl
        · split
          · rfl
          · next heq =>
            rw [heq] at h
            simp [isErr] at h

/-- Concrete instance of the amended C8: a resolved successful execution
increments the counter. -/
theorem C8_witness :
    (executeEndpoint ⟨false, true, true, .ok "container0",
        .ok ⟨true, .null, .null, .arr []⟩, .ok ⟨true, "saved"⟩⟩
      ⟨"return 1", "proj-8b"⟩ none "ep-8b" "user-8b").2.callCountIncremented = true :=
  (C8_stats_amended ⟨false, true, true, .ok "container0",
      .ok ⟨true, .null, .null, .arr []⟩, .ok ⟨true, "saved"⟩⟩
    ⟨"return 1", "proj-8b"⟩ none "ep-8b" "user-8b").1
    ⟨true, .null, .null, .arr []⟩ rfl rfl rfl rfl ⟨"container0", rfl⟩ rfl

/-- Counterexample to C9 as stated: a successful execution requests a save,
the persistence call fails, a save was indeed attempted — yet the response
reports no save result at all (savedData is null): the failure is swallowed
by the catch of line 701 instead of being surfaced in the save-result
substructure. -/
theorem C9_counterexample :
    respSuccess ((executeEndpoint c9World ⟨"return save()", "proj-9"⟩ (some "col-9")
        "ep-9" "user-9").1) = some true
    ∧ (executeEndpoint c9World ⟨"return save()", "proj-9"⟩ (some "col-9")
        "ep-9" "user-9").2.saveAttempts = 1
    ∧ savedCount ((executeEndpoint c9World ⟨"return save()", "proj-9"⟩ (some "col-9")
        "ep-9" "user-9").1) = some none :=
  ⟨rfl, rfl, rfl⟩

/-- C9 amended: when the execution resolved and the persistence of a
requested save directive fails, the response is still returned normally
with the execution's own success flag unchanged — the persistence error
neither flips success nor is raised to the caller — but it is not
reported either: the response's savedData substructure is null. -/
theorem C9_save_failure_amended :
    ∀ (w : OrchestratorWorld) (ep : EndpointRec) (mcid : Option String)
      (eid uid : String) (r : RawResult) (e : String),
      w.rateLimited = false → w.endpointFound = true → w.hasAccess = true →
      validateCode ep.code = .ok () → (∃ cid, w.createOutcome = .ok cid) →
      w.execOutcome = .ok r → w.saveOutcome = .error e →
      ∃ resp, (executeEndpoint w ep mcid eid uid).1 = .ok resp ∧
        resp.success = r.success ∧ resp.savedDataCount = none := by
  intro w ep mcid eid uid r e h1 h2 h3 hv hcr he hs
  obtain ⟨cid, hc⟩ := hcr
  simp only [executeEndpoint, h1, h2, h3, hv, hc, he, hs, Bool.not_true,
    Bool.not_false, if_false, Bool.false_eq_true, ite_false]
  refine ⟨_, rfl, rfl, ?_⟩
  rw [saveProcessing_error_results]
  rfl

/-- Concrete instance of the amended C9, at the counterexample's inputs. -/
theorem C9_witness :
    ∃ resp, (executeEndpoint c9World ⟨"return save()", "proj-9"⟩ (some "col-9")
        "ep-9" "user-9").1 = .ok resp ∧
      resp.success = c9RawRes.success ∧ resp.savedDataCount = none :=
  C9_save_failure_amended c9World ⟨"return save()", "proj-9"⟩ (some "col-9")
    "ep-9" "user-9" c9RawRes "DB_WRITE_FAILED" rfl rfl rfl rfl
    ⟨"container0", rfl⟩ rfl rfl

/-- C10: under the vm2 strategy the returned result always carries an
empty logs list, whatever the run outcome — even though the sandbox's
console substitute does buffer every logged line internally. -/
theorem C10_vm2_logs_empty :
    (∀ (o : Except String JsVal) (t : Nat), (executeWithVM2 o t).logs = [])
    ∧ (∀ (buf : List String) (m : String),
        sandboxConsoleLog buf m = buf ++ ["LOG: " ++ m]) :=
  ⟨fun o _ => by cases o <;> rfl, fun _ _ => rfl⟩

end FluxExec
